import Mathlib

/-!
Shallow embedding of the bus-ETA service (`src/app/app.py`).

Floats are modelled as rationals (ℚ); Python's `round` (banker's rounding,
half-to-even) is modelled by `roundHalfEven`; Python dict fields that may be
missing are `Option`s; a field that may hold a non-numeric JSON value is an
`Option PyVal`.  The HTTP layer is modelled by explicit inputs (query
parameters, the current event-loop time, the cache entry for the query's key,
and the outcome the upstream service would produce if called) and an explicit
output record (response or HTTP error, new cache entry, whether upstream was
invoked).
-/

namespace BusEta

/-- Environment-sourced configuration (`AVG_SPEED`, `ETA_LIMIT`,
`POLL_INTERVAL`, `MISS_LIMIT` in the source). -/
structure Config where
  avg_speed_kmh : ℚ
  eta_limit_minutes : ℤ
  poll_interval : ℚ
  miss_limit : ℕ
deriving DecidableEq

/-- The source's defaults: 26 km/h, 30 min, 15 s, 5 misses. -/
def defaultConfig : Config := ⟨26, 30, 15, 5⟩

/-- The limit in seconds: `ETA_LIMIT_SECONDS = ETA_LIMIT_MINUTES * 60`. -/
def Config.eta_limit_seconds (cfg : Config) : ℚ := (cfg.eta_limit_minutes : ℚ) * 60

/-- A JSON scalar that a device field may hold: a number, or something
non-numeric (multiplying by it raises `TypeError` in the source, which the
`except` clause of `calculate_eta` turns into `None`). -/
inductive PyVal where
  | num (q : ℚ)
  | nonNum (s : String)
deriving DecidableEq

/-- One device record from the upstream payload, with exactly the fields
`calculate_eta` and the filter in `get_eta` read.  Each is optional because
Python `dict.get` yields `None` for a missing key. -/
structure Device where
  transport_type : Option String
  route_name : Option String
  direction_id : Option String
  direction_length : Option PyVal
  geometry_way_part : Option PyVal
deriving DecidableEq

/-- The upstream response body as `get_eta` inspects it: `truthy` models the
Python truthiness test `not last_response_data`, and `devices` is the
`"devices"` key (absent when the key is missing). -/
structure RawData where
  truthy : Bool
  devices : Option (List Device)
deriving DecidableEq

/-- One cache entry: `{'data': ..., 'time': ..., 'miss_count': ...}`. -/
structure CacheEntry where
  data : RawData
  time : ℚ
  miss_count : ℕ
deriving DecidableEq

/-- An HTTP error as raised via `HTTPException(status_code=...)`. -/
structure HttpError where
  status : ℕ
deriving DecidableEq

/-- Result of a request handler step: a value or an `HTTPException`. -/
inductive Res (α : Type) where
  | ok (a : α)
  | error (e : HttpError)
deriving DecidableEq

/-- A JSON value appearing in the `"eta"` response field. -/
inductive EtaVal where
  | num (q : ℚ)
  | str (s : String)
  | null
deriving DecidableEq

/-- The JSON response body: the source only ever produces the single-value
`eta` form; the `etas` list form exists in the response type so that claims
about a full-list response can be stated. -/
inductive EtaResponse where
  | eta (v : EtaVal)
  | etas (l : List EtaVal)
deriving DecidableEq

/-- The query parameters declared by the `get_eta` endpoint. -/
structure Query where
  route_name : String
  direction_id : String
  stop_part : ℚ
  unit : String
deriving DecidableEq

/-- Outcome of one request: response (or error), the cache entry stored for
the query's key afterwards, and whether the upstream fetch was invoked. -/
structure GetEtaOut where
  response : Res EtaResponse
  entry : Option CacheEntry
  fetched : Bool
deriving DecidableEq

/-- Python's `round` to an integer: round half to even. -/
def roundHalfEven (q : ℚ) : ℤ :=
  let n : ℤ := ⌊q⌋
  let r : ℚ := q - (n : ℚ)
  if r < 1/2 then n
  else if (1 : ℚ)/2 < r then n + 1
  else if n % 2 = 0 then n else n + 1

/-- Python's `round(x, 1)`: round to one decimal place, half to even. -/
def round1 (q : ℚ) : ℚ := (roundHalfEven (q * 10) : ℚ) / 10

/-- Python's `str.lower` restricted to ASCII, as applied to the `unit`
query parameter. -/
def str_lower (s : String) : String := ⟨s.data.map Char.toLower⟩

/-- The cache key builder `get_cache_key`: route name and direction id
joined by an underscore. -/
def get_cache_key (route_name : String) (direction_id : String) : String :=
  route_name ++ "_" ++ direction_id

/-- What the upstream call would produce: a payload, a non-success HTTP
status (`httpx.HTTPStatusError`), a transport failure (`httpx.RequestError`),
or any other exception. -/
inductive FetchResult where
  | ok (data : RawData)
  | httpStatusError (status : ℕ)
  | requestError
  | otherError
deriving DecidableEq

/-- The upstream call `fetch_2gis_data`: returns the payload on success, raises
`HTTPException(502)` on an upstream status or transport error, and
`HTTPException(500)` on any other exception. -/
def fetch_2gis_data : FetchResult → Res RawData
  | .ok d => .ok d
  | .httpStatusError _ => .error ⟨502⟩
  | .requestError => .error ⟨502⟩
  | .otherError => .error ⟨500⟩

/-- The estimator `calculate_eta`: per-vehicle ETA in seconds, or `none` when the vehicle
is not a bus, lacks `route_name`/`direction_length`/`geometry_way_part`,
has a non-numeric length or way part (the `TypeError`/`ValueError` handler),
or has already passed the stop. -/
def calculate_eta (cfg : Config) (bus_device : Device) (target_stop_part : ℚ) :
    Option ℚ :=
  if bus_device.transport_type ≠ some "bus" then none
  else if bus_device.route_name = none ∨ bus_device.direction_length = none ∨
          bus_device.geometry_way_part = none then none
  else
    match bus_device.direction_length, bus_device.geometry_way_part with
    | some (.num direction_length), some (.num geometry_way_part) =>
        let bus_moved_part := direction_length * geometry_way_part
        let stop_way_distance := direction_length * target_stop_part
        if bus_moved_part ≥ stop_way_distance then none
        else
          let remaining_distance_meters := stop_way_distance - bus_moved_part
          let avg_speed_mps := cfg.avg_speed_kmh * 1000 / 3600
          some (remaining_distance_meters / avg_speed_mps)
    | _, _ => none

/-- The candidate-collection loop of `get_eta`: keep every device whose
`route_name` and `direction_id` equal the query's, and collect the non-`None`
results of `calculate_eta`. -/
def collect_etas (cfg : Config) (route_name : String) (direction_id : String)
    (stop_part : ℚ) (devices : List Device) : List ℚ :=
  devices.filterMap fun d =>
    if d.route_name = some route_name ∧ d.direction_id = some direction_id then
      calculate_eta cfg d stop_part
    else none

/-- The cache block of `get_eta` (lines 125–141): decide staleness, call
`fetch_2gis_data` when the entry is missing or expired, and build the fresh
entry with `miss_count = 0`; report whether upstream was invoked. -/
def cache_check (cfg : Config) (current_time : ℚ) (cached : Option CacheEntry)
    (upstream : FetchResult) : Res CacheEntry × Bool :=
  match cached with
  | none =>
      (match fetch_2gis_data upstream with
       | .error err => (.error err, true)
       | .ok raw => (.ok ⟨raw, current_time, 0⟩, true))
  | some e =>
      if current_time - e.time > cfg.poll_interval then
        (match fetch_2gis_data upstream with
         | .error err => (.error err, true)
         | .ok raw => (.ok ⟨raw, current_time, 0⟩, true))
      else (.ok e, false)

/-- The resolution part of `get_eta` after the cache block: validate the
payload, collect candidate ETAs, run the miss-streak policy on an empty
list, otherwise reset the streak and apply the limit check and unit
conversion to the minimum. -/
def resolve_entry (cfg : Config) (q : Query) (e : CacheEntry) (fetched : Bool) :
    GetEtaOut :=
  match e.data.devices with
  | none => ⟨.error ⟨502⟩, some e, fetched⟩
  | some devices =>
      if e.data.truthy = false then ⟨.error ⟨502⟩, some e, fetched⟩
      else
        match collect_etas cfg q.route_name q.direction_id q.stop_part devices with
        | [] =>
            let miss_count := e.miss_count + 1
            if cfg.miss_limit ≤ miss_count then
              ⟨.ok (.eta .null), some ⟨e.data, e.time, 0⟩, fetched⟩
            else
              ⟨.ok (.eta (.str (">" ++ toString cfg.eta_limit_minutes))),
               some ⟨e.data, e.time, miss_count⟩, fetched⟩
        | x :: xs =>
            let min_eta_seconds := xs.foldl min x
            if min_eta_seconds > cfg.eta_limit_seconds then
              ⟨.ok (.eta (.str (">" ++ toString cfg.eta_limit_minutes ++ "м"))),
               some ⟨e.data, e.time, 0⟩, fetched⟩
            else if str_lower q.unit = "min" then
              let rv := round1 (min_eta_seconds / 60)
              ⟨.ok (.eta (.num (if rv ≤ 0 then 0 else rv))),
               some ⟨e.data, e.time, 0⟩, fetched⟩
            else
              ⟨.ok (.eta (.num (roundHalfEven min_eta_seconds : ℚ))),
               some ⟨e.data, e.time, 0⟩, fetched⟩

/-- The whole `/eta` handler: cache block then resolution.  When the fetch
raises, the exception propagates and the stored entry is left as it was. -/
def get_eta (cfg : Config) (q : Query) (current_time : ℚ)
    (cached : Option CacheEntry) (upstream : FetchResult) : GetEtaOut :=
  match cache_check cfg current_time cached upstream with
  | (.error err, f) => ⟨.error err, cached, f⟩
  | (.ok e, f) => resolve_entry cfg q e f

/-- Whether a response is the full-list `etas` form. -/
def isEtasResponse : Res EtaResponse → Bool
  | .ok (.etas _) => true
  | _ => false

/-- Sample input: a bus whose ETA is exactly 119 seconds
(`direction_length = 7735/9`, way part 0, stop part 1, 26 km/h). -/
def bus119 : Device :=
  ⟨some "bus", some "168", some "d1", some (.num (7735/9)), some (.num 0)⟩

/-- Sample cache entry holding only `bus119`. -/
def entry119 : CacheEntry := ⟨⟨true, some [bus119]⟩, 0, 0⟩

/-- Sample input: the spec's scenario bus (`direction_length = 5000`,
`geometry_way_part = 0.2`). -/
def bus5000 : Device :=
  ⟨some "bus", some "168", some "d1", some (.num 5000), some (.num (2/10))⟩

/-- Sample cache entry holding only `bus5000`. -/
def entry5000 : CacheEntry := ⟨⟨true, some [bus5000]⟩, 0, 0⟩

/-- Sample input: a bus 90 seconds away at stop part 0.4. -/
def bus90 : Device :=
  ⟨some "bus", some "168", some "d1", some (.num 6500), some (.num (3/10))⟩

/-- Sample input: a bus 2000 seconds away at stop part 0.4. -/
def bus2000 : Device :=
  ⟨some "bus", some "168", some "d1", some (.num (325000/9)), some (.num 0)⟩

/-- Sample cache entry holding `bus90` and `bus2000`. -/
def entryTwoBuses : CacheEntry := ⟨⟨true, some [bus90, bus2000]⟩, 0, 0⟩

/-- A query within TTL skips the cache block and resolves against the
stored entry without fetching. -/
lemma get_eta_fresh (cfg : Config) (q : Query) (ct : ℚ) (e : CacheEntry)
    (fr : FetchResult) (hfresh : ct - e.time ≤ cfg.poll_interval) :
    get_eta cfg q ct (some e) fr = resolve_entry cfg q e false := by
  simp [get_eta, cache_check, not_lt.mpr hfresh]

/-- With a truthy payload carrying a device list and no candidate ETAs,
`resolve_entry` runs the miss-streak branch. -/
lemma resolve_entry_empty (cfg : Config) (q : Query) (e : CacheEntry) (f : Bool)
    (devs : List Device) (htr : e.data.truthy = true)
    (hdevs : e.data.devices = some devs)
    (hempty : collect_etas cfg q.route_name q.direction_id q.stop_part devs = []) :
    resolve_entry cfg q e f =
      if cfg.miss_limit ≤ e.miss_count + 1 then
        ⟨.ok (.eta .null), some ⟨e.data, e.time, 0⟩, f⟩
      else
        ⟨.ok (.eta (.str (">" ++ toString cfg.eta_limit_minutes))),
         some ⟨e.data, e.time, e.miss_count + 1⟩, f⟩ := by
  simp [resolve_entry, hdevs, htr, hempty]

/-- With a truthy payload and a non-empty candidate list, `resolve_entry`
resets the streak and applies the limit check and unit conversion to the
minimum. -/
lemma resolve_entry_cons (cfg : Config) (q : Query) (e : CacheEntry) (f : Bool)
    (devs : List Device) (x : ℚ) (xs : List ℚ) (htr : e.data.truthy = true)
    (hdevs : e.data.devices = some devs)
    (hcons : collect_etas cfg q.route_name q.direction_id q.stop_part devs = x :: xs) :
    resolve_entry cfg q e f =
      if xs.foldl min x > cfg.eta_limit_seconds then
        ⟨.ok (.eta (.str (">" ++ toString cfg.eta_limit_minutes ++ "м"))),
         some ⟨e.data, e.time, 0⟩, f⟩
      else if str_lower q.unit = "min" then
        ⟨.ok (.eta (.num (if round1 (xs.foldl min x / 60) ≤ 0 then 0
                          else round1 (xs.foldl min x / 60)))),
         some ⟨e.data, e.time, 0⟩, f⟩
      else
        ⟨.ok (.eta (.num (roundHalfEven (xs.foldl min x) : ℚ))),
         some ⟨e.data, e.time, 0⟩, f⟩ := by
  simp only [resolve_entry, hdevs, htr, hcons]
  rw [if_neg (by decide : ¬(true = false))]

/-- Splitting lists around a separator character that occurs in neither
left part determines both parts. -/
lemma append_sep_cancel : ∀ (a b x y : List Char), '_' ∉ a → '_' ∉ b →
    a ++ '_' :: x = b ++ '_' :: y → a = b ∧ x = y := by
  intro a
  induction a with
  | nil =>
    intro b x y _ hb h
    cases b with
    | nil => simpa using h
    | cons c bs =>
      simp only [List.nil_append, List.cons_append, List.cons.injEq] at h
      exact absurd (h.1 ▸ List.mem_cons_self c bs) hb
  | cons c as ih =>
    intro b x y ha hb h
    cases b with
    | nil =>
      simp only [List.cons_append, List.nil_append, List.cons.injEq] at h
      exact absurd (h.1 ▸ List.mem_cons_self c as) ha
    | cons c' bs =>
      simp only [List.cons_append, List.cons.injEq] at h
      obtain ⟨hc, htl⟩ := h
      have ha' : '_' ∉ as := fun hm => ha (List.mem_cons_of_mem _ hm)
      have hb' : '_' ∉ bs := fun hm => hb (List.mem_cons_of_mem _ hm)
      obtain ⟨hab, hxy⟩ := ih bs x y ha' hb' htl
      exact ⟨by rw [hc, hab], hxy⟩

/-- Claim C3 (counterexample): `get_cache_key` is not injective on pairs —
the pairs `("a_b", "c")` and `("a", "b_c")` differ but yield the same key
`"a_b_c"`, so their queries read and mutate the same cache entry. -/
theorem get_cache_key_collision :
    get_cache_key "a_b" "c" = get_cache_key "a" "b_c" ∧
    (("a_b", "c") : String × String) ≠ ("a", "b_c") := by
  exact ⟨rfl, by decide⟩

/-- Claim C3 (amended): the cache key is `route_name ++ "_" ++ direction_id`,
which identifies pairs only up to the placement of underscores; it is
injective on pairs whose route names contain no underscore. -/
theorem get_cache_key_inj_of_no_underscore (r1 d1 r2 d2 : String)
    (h1 : '_' ∉ r1.data) (h2 : '_' ∉ r2.data)
    (h : get_cache_key r1 d1 = get_cache_key r2 d2) : r1 = r2 ∧ d1 = d2 := by
  have hd : r1.data ++ '_' :: d1.data = r2.data ++ '_' :: d2.data := by
    have h' := congrArg String.data h
    simpa [get_cache_key, String.data_append] using h'
  obtain ⟨hr, hdd⟩ := append_sep_cancel _ _ _ _ h1 h2 hd
  exact ⟨String.ext hr, String.ext hdd⟩

/-- Witness for claim C3's amended theorem at concrete strings. -/
theorem get_cache_key_inj_witness : ("168" : String) = "168" ∧ ("d4" : String) = "d4" :=
  get_cache_key_inj_of_no_underscore "168" "d4" "168" "d4"
    (by decide) (by decide) rfl

/-- Claim C5: a query within TTL reuses the identical cached entry and does
not invoke the upstream fetch; a query past TTL, or with no entry, invokes
the fetch and (on success) replaces the payload and timestamp, resetting
the miss counter to 0. -/
theorem cache_check_freshness (cfg : Config) (current_time : ℚ)
    (e : CacheEntry) (upstream : FetchResult) (raw : RawData) :
    (current_time - e.time ≤ cfg.poll_interval →
      cache_check cfg current_time (some e) upstream = (.ok e, false)) ∧
    (current_time - e.time > cfg.poll_interval → fetch_2gis_data upstream = .ok raw →
      cache_check cfg current_time (some e) upstream =
        (.ok ⟨raw, current_time, 0⟩, true)) ∧
    (fetch_2gis_data upstream = .ok raw →
      cache_check cfg current_time none upstream =
        (.ok ⟨raw, current_time, 0⟩, true)) := by
  refine ⟨fun hfresh => ?_, fun hstale hok => ?_, fun hok => ?_⟩
  · simp [cache_check, not_lt.mpr hfresh]
  · simp [cache_check, hstale, hok]
  · simp [cache_check, hok]

/-- Witness for claim C5's theorem: both a fresh reuse and a stale refresh at
concrete inputs. -/
theorem cache_check_freshness_witness :
    cache_check defaultConfig 10 (some ⟨⟨true, some []⟩, 0, 2⟩) (.ok ⟨true, some []⟩) =
      (.ok ⟨⟨true, some []⟩, 0, 2⟩, false) ∧
    cache_check defaultConfig 20 (some ⟨⟨true, some []⟩, 0, 2⟩) (.ok ⟨false, none⟩) =
      (.ok ⟨⟨false, none⟩, 20, 0⟩, true) :=
  ⟨(cache_check_freshness defaultConfig 10 ⟨⟨true, some []⟩, 0, 2⟩
      (.ok ⟨true, some []⟩) ⟨true, some []⟩).1 (by norm_num [defaultConfig]),
   (cache_check_freshness defaultConfig 20 ⟨⟨true, some []⟩, 0, 2⟩
      (.ok ⟨false, none⟩) ⟨false, none⟩).2.1 (by norm_num [defaultConfig]) rfl⟩

/-- Claim C7: `calculate_eta` returns `none` for a vehicle that is not a
bus, for one with a missing direction length or way part, for one whose
direction length or way part is non-numeric, and for one that has already
reached or passed the stop; being a total function into `Option`, it never
raises an error to the caller. -/
theorem calculate_eta_absent_cases (cfg : Config) (d : Device) (s : ℚ) :
    (d.transport_type ≠ some "bus" → calculate_eta cfg d s = none) ∧
    (d.direction_length = none ∨ d.geometry_way_part = none →
      calculate_eta cfg d s = none) ∧
    (∀ t, d.direction_length = some (.nonNum t) → calculate_eta cfg d s = none) ∧
    (∀ t, d.geometry_way_part = some (.nonNum t) → calculate_eta cfg d s = none) ∧
    (∀ L g, d.direction_length = some (.num L) → d.geometry_way_part = some (.num g) →
      L * g ≥ L * s → calculate_eta cfg d s = none) := by
  refine ⟨fun hbus => ?_, fun hmiss => ?_, fun t ht => ?_, fun t ht => ?_,
    fun L g hL hg hge => ?_⟩
  · simp [calculate_eta, hbus]
  · rcases hmiss with hm | hm <;> simp [calculate_eta, hm]
  · unfold calculate_eta
    split
    · rfl
    · split
      · rfl
      · rw [ht]
  · unfold calculate_eta
    split
    · rfl
    · split
      · rfl
      · rw [ht]
        rcases hdl : d.direction_length with - | v
        · rfl
        · cases v <;> rfl
  · unfold calculate_eta
    split
    · rfl
    · split
      · rfl
      · rw [hL, hg]
        simp [hge]

/-- Witness for claim C7's theorem: a tram, a device missing its way part,
non-numeric fields, and a bus past the stop all give `none`. -/
theorem calculate_eta_absent_witness :
    calculate_eta defaultConfig ⟨some "tram", some "168", some "d", some (.num 100), some (.num 0)⟩ 1 = none ∧
    calculate_eta defaultConfig ⟨some "bus", some "168", some "d", some (.num 100), none⟩ 1 = none ∧
    calculate_eta defaultConfig ⟨some "bus", some "168", some "d", some (.nonNum "x"), some (.num 0)⟩ 1 = none ∧
    calculate_eta defaultConfig ⟨some "bus", some "168", some "d", some (.num 100), some (.nonNum "y")⟩ 1 = none ∧
    calculate_eta defaultConfig ⟨some "bus", some "168", some "d", some (.num 100), some (.num (1/2))⟩ (1/2) = none :=
  ⟨(calculate_eta_absent_cases defaultConfig _ 1).1 (by decide),
   (calculate_eta_absent_cases defaultConfig _ 1).2.1 (Or.inr rfl),
   (calculate_eta_absent_cases defaultConfig _ 1).2.2.1 "x" rfl,
   (calculate_eta_absent_cases defaultConfig _ 1).2.2.2.1 "y" rfl,
   (calculate_eta_absent_cases defaultConfig _ (1/2)).2.2.2.2 100 (1/2) rfl rfl (by norm_num)⟩

/-- Claim C8: for a valid bus (expected mode, numeric fields, positive
route length, positive configured speed) with a present estimate, the
estimate is strictly decreasing in `geometry_way_part` with all other
inputs held fixed. -/
theorem calculate_eta_strict_anti (cfg : Config) (rn : String) (di : Option String)
    (L s g1 g2 e1 e2 : ℚ) (hL : 0 < L) (hsp : 0 < cfg.avg_speed_kmh) (hg : g1 < g2)
    (h1 : calculate_eta cfg ⟨some "bus", some rn, di, some (.num L), some (.num g1)⟩ s = some e1)
    (h2 : calculate_eta cfg ⟨some "bus", some rn, di, some (.num L), some (.num g2)⟩ s = some e2) :
    e2 < e1 := by
  simp only [calculate_eta] at h1 h2
  rw [if_neg (by simp)] at h1 h2
  rw [if_neg (by simp)] at h1 h2
  have hv : (0 : ℚ) < cfg.avg_speed_kmh * 1000 / 3600 := by positivity
  split at h1
  · exact absurd h1 (by simp)
  · split at h2
    · exact absurd h2 (by simp)
    · rw [Option.some.injEq] at h1 h2
      rw [← h1, ← h2, div_lt_div_iff₀ hv hv]
      nlinarith [mul_pos hL hv, mul_pos (mul_pos hL hv) (sub_pos.mpr hg)]

/-- Witness for claim C8's theorem: a bus at way part 1/2 has a strictly
smaller ETA than one at way part 0 on the same 100 m route. -/
theorem calculate_eta_strict_anti_witness : (90 : ℚ)/13 < 180/13 :=
  calculate_eta_strict_anti defaultConfig "168" (some "d1") 100 1 0 (1/2)
    (180/13) (90/13) (by norm_num) (by norm_num [defaultConfig]) (by norm_num)
    (by simp [calculate_eta, defaultConfig]; norm_num)
    (by simp [calculate_eta, defaultConfig]; norm_num)

/-- Claim C4: with a fresh cache entry whose payload is valid, an
empty-candidate query increments the miss counter and returns the
beyond-limit string while the counter stays below the limit, returns null
and resets the counter on the query where the counter reaches the limit, a
non-empty-candidate query resets the counter, the stored counter stays in
`[0, miss_limit)`, and every successful refresh stores counter 0. -/
theorem miss_streak_policy (cfg : Config) (q : Query) (ct : ℚ) (e : CacheEntry)
    (fr : FetchResult) (devs : List Device)
    (hfresh : ct - e.time ≤ cfg.poll_interval)
    (htr : e.data.truthy = true) (hdevs : e.data.devices = some devs)
    (hinv : e.miss_count < cfg.miss_limit) :
    (collect_etas cfg q.route_name q.direction_id q.stop_part devs = [] →
       e.miss_count + 1 < cfg.miss_limit →
       get_eta cfg q ct (some e) fr =
         ⟨.ok (.eta (.str (">" ++ toString cfg.eta_limit_minutes))),
          some ⟨e.data, e.time, e.miss_count + 1⟩, false⟩) ∧
    (collect_etas cfg q.route_name q.direction_id q.stop_part devs = [] →
       e.miss_count + 1 = cfg.miss_limit →
       get_eta cfg q ct (some e) fr =
         ⟨.ok (.eta .null), some ⟨e.data, e.time, 0⟩, false⟩) ∧
    (∀ x xs, collect_etas cfg q.route_name q.direction_id q.stop_part devs = x :: xs →
       (get_eta cfg q ct (some e) fr).entry = some ⟨e.data, e.time, 0⟩) ∧
    (∀ e', (get_eta cfg q ct (some e) fr).entry = some e' →
       e'.miss_count < cfg.miss_limit) ∧
    (∀ cached fr' raw, fetch_2gis_data fr' = .ok raw →
       (cache_check cfg ct cached fr').2 = true →
       (cache_check cfg ct cached fr').1 = .ok ⟨raw, ct, 0⟩) := by
  have hlimpos : 0 < cfg.miss_limit := lt_of_le_of_lt (Nat.zero_le _) hinv
  refine ⟨fun hempty hlt => ?_, fun hempty heq => ?_, fun x xs hcons => ?_,
    fun e' he' => ?_, fun cached fr' raw hok hf => ?_⟩
  · rw [get_eta_fresh cfg q ct e fr hfresh,
      resolve_entry_empty cfg q e false devs htr hdevs hempty,
      if_neg (Nat.not_le.mpr hlt)]
  · rw [get_eta_fresh cfg q ct e fr hfresh,
      resolve_entry_empty cfg q e false devs htr hdevs hempty,
      if_pos heq.ge]
  · rw [get_eta_fresh cfg q ct e fr hfresh,
      resolve_entry_cons cfg q e false devs x xs htr hdevs hcons]
    split
    · rfl
    · split <;> rfl
  · rcases hc : collect_etas cfg q.route_name q.direction_id q.stop_part devs with
      - | ⟨x, xs⟩
    · rw [get_eta_fresh cfg q ct e fr hfresh,
        resolve_entry_empty cfg q e false devs htr hdevs hc] at he'
      split at he'
      · cases he'
        simpa using hlimpos
      · cases he'
        simpa using Nat.lt_of_not_le (by assumption)
    · rw [get_eta_fresh cfg q ct e fr hfresh,
        resolve_entry_cons cfg q e false devs x xs htr hdevs hc] at he'
      split at he'
      · cases he'
        simpa using hlimpos
      · split at he' <;> · cases he'; simpa using hlimpos
  · rcases cached with - | e0
    · simp [cache_check, hok]
    · by_cases hstale : ct - e0.time > cfg.poll_interval
      · simp [cache_check, hstale, hok]
      · simp [cache_check, hstale] at hf


/-- Witness for claim C4's theorem: an empty payload with miss counter 3 at
the default limit 5 returns the beyond-limit string and stores counter 4. -/
theorem miss_streak_policy_witness :
    get_eta defaultConfig ⟨"168", "d1", 1, "min"⟩ 10
      (some ⟨⟨true, some []⟩, 0, 3⟩) .requestError =
      ⟨.ok (.eta (.str ">30")), some ⟨⟨true, some []⟩, 0, 4⟩, false⟩ :=
  (miss_streak_policy defaultConfig ⟨"168", "d1", 1, "min"⟩ 10
      ⟨⟨true, some []⟩, 0, 3⟩ .requestError [] (by norm_num [defaultConfig]) rfl rfl
      (by norm_num [defaultConfig])).1 rfl (by norm_num [defaultConfig])


/-- With fresh cache, valid payload, and a minimum candidate above the
ceiling, the response is the beyond-limit marker with unit suffix. -/
lemma get_eta_over_limit (cfg : Config) (q : Query) (ct : ℚ) (e : CacheEntry)
    (fr : FetchResult) (devs : List Device) (x : ℚ) (xs : List ℚ)
    (hfresh : ct - e.time ≤ cfg.poll_interval) (htr : e.data.truthy = true)
    (hdevs : e.data.devices = some devs)
    (hcons : collect_etas cfg q.route_name q.direction_id q.stop_part devs = x :: xs)
    (hgt : xs.foldl min x > cfg.eta_limit_seconds) :
    get_eta cfg q ct (some e) fr =
      ⟨.ok (.eta (.str (">" ++ toString cfg.eta_limit_minutes ++ "м"))),
       some ⟨e.data, e.time, 0⟩, false⟩ := by
  rw [get_eta_fresh cfg q ct e fr hfresh,
    resolve_entry_cons cfg q e false devs x xs htr hdevs hcons, if_pos hgt]

/-- With fresh cache, valid payload, minimum within the ceiling, and a unit
lowercasing to "min", the response is the clamped one-decimal minute value. -/
lemma get_eta_min_unit (cfg : Config) (q : Query) (ct : ℚ) (e : CacheEntry)
    (fr : FetchResult) (devs : List Device) (x : ℚ) (xs : List ℚ)
    (hfresh : ct - e.time ≤ cfg.poll_interval) (htr : e.data.truthy = true)
    (hdevs : e.data.devices = some devs)
    (hcons : collect_etas cfg q.route_name q.direction_id q.stop_part devs = x :: xs)
    (hle : xs.foldl min x ≤ cfg.eta_limit_seconds) (hu : str_lower q.unit = "min") :
    get_eta cfg q ct (some e) fr =
      ⟨.ok (.eta (.num (if round1 (xs.foldl min x / 60) ≤ 0 then 0
                        else round1 (xs.foldl min x / 60)))),
       some ⟨e.data, e.time, 0⟩, false⟩ := by
  rw [get_eta_fresh cfg q ct e fr hfresh,
    resolve_entry_cons cfg q e false devs x xs htr hdevs hcons,
    if_neg (not_lt.mpr hle), if_pos hu]

/-- With fresh cache, valid payload, minimum within the ceiling, and a unit
not lowercasing to "min", the response is the rounded whole-second value. -/
lemma get_eta_sec_unit (cfg : Config) (q : Query) (ct : ℚ) (e : CacheEntry)
    (fr : FetchResult) (devs : List Device) (x : ℚ) (xs : List ℚ)
    (hfresh : ct - e.time ≤ cfg.poll_interval) (htr : e.data.truthy = true)
    (hdevs : e.data.devices = some devs)
    (hcons : collect_etas cfg q.route_name q.direction_id q.stop_part devs = x :: xs)
    (hle : xs.foldl min x ≤ cfg.eta_limit_seconds) (hu : str_lower q.unit ≠ "min") :
    get_eta cfg q ct (some e) fr =
      ⟨.ok (.eta (.num (roundHalfEven (xs.foldl min x) : ℚ))),
       some ⟨e.data, e.time, 0⟩, false⟩ := by
  rw [get_eta_fresh cfg q ct e fr hfresh,
    resolve_entry_cons cfg q e false devs x xs htr hdevs hcons,
    if_neg (not_lt.mpr hle), if_neg hu]

/-- Claim C1 (amended): for a non-empty candidate list, a minimum strictly
above the ceiling in seconds yields the beyond-limit marker; otherwise a
unit lowercasing to "min" yields the minimum divided by 60 and rounded
half-to-even to one decimal place, clamped to 0 when non-positive (so 119
seconds gives 2.0 minutes, not 1, and 30 seconds gives 0.5 minutes, not 0),
and any other unit yields the minimum rounded half-to-even to the nearest
integer second. -/
theorem limit_and_convert (cfg : Config) (q : Query) (ct : ℚ) (e : CacheEntry)
    (fr : FetchResult) (devs : List Device) (x : ℚ) (xs : List ℚ)
    (hfresh : ct - e.time ≤ cfg.poll_interval) (htr : e.data.truthy = true)
    (hdevs : e.data.devices = some devs)
    (hcons : collect_etas cfg q.route_name q.direction_id q.stop_part devs = x :: xs) :
    (xs.foldl min x > cfg.eta_limit_seconds →
       (get_eta cfg q ct (some e) fr).response =
         .ok (.eta (.str (">" ++ toString cfg.eta_limit_minutes ++ "м")))) ∧
    (xs.foldl min x ≤ cfg.eta_limit_seconds → str_lower q.unit = "min" →
       (get_eta cfg q ct (some e) fr).response =
         .ok (.eta (.num (if round1 (xs.foldl min x / 60) ≤ 0 then 0
                          else round1 (xs.foldl min x / 60))))) ∧
    (xs.foldl min x ≤ cfg.eta_limit_seconds → str_lower q.unit ≠ "min" →
       (get_eta cfg q ct (some e) fr).response =
         .ok (.eta (.num (roundHalfEven (xs.foldl min x) : ℚ)))) ∧
    round1 (119/60) = 2 ∧ round1 (30/60) = 1/2 := by
  refine ⟨fun hgt => ?_, fun hle hu => ?_, fun hle hu => ?_, ?_, ?_⟩
  · rw [get_eta_over_limit cfg q ct e fr devs x xs hfresh htr hdevs hcons hgt]
  · rw [get_eta_min_unit cfg q ct e fr devs x xs hfresh htr hdevs hcons hle hu]
  · rw [get_eta_sec_unit cfg q ct e fr devs x xs hfresh htr hdevs hcons hle hu]
  · norm_num [round1, roundHalfEven]
  · norm_num [round1, roundHalfEven]

/-- Claim C1 (counterexample): a single matching bus exactly 119 seconds
away queried with unit "min" yields `{"eta": 2}` (round to one decimal),
not the 1 minute that truncation toward zero would give. -/
theorem limit_and_convert_trunc_fails :
    (get_eta defaultConfig ⟨"168", "d1", 1, "min"⟩ 10 (some entry119)
        .requestError).response = .ok (.eta (.num 2)) ∧ (2 : ℚ) ≠ 1 := by
  constructor
  · rw [get_eta_min_unit defaultConfig ⟨"168", "d1", 1, "min"⟩ 10 entry119
      .requestError [bus119] 119 []
      (by norm_num [entry119, defaultConfig]) rfl rfl
      (by simp [collect_etas, bus119, calculate_eta, defaultConfig]; norm_num)
      (by norm_num [Config.eta_limit_seconds, defaultConfig]) (by decide)]
    norm_num [round1, roundHalfEven]
  · norm_num

/-- Witness for claim C1's amended theorem: the same 119-second bus queried
with unit "sec" yields `{"eta": 119}` through the rounded-seconds branch. -/
theorem limit_and_convert_witness :
    (get_eta defaultConfig ⟨"168", "d1", 1, "sec"⟩ 10 (some entry119)
        .requestError).response = .ok (.eta (.num 119)) := by
  have h := (limit_and_convert defaultConfig ⟨"168", "d1", 1, "sec"⟩ 10 entry119
      .requestError [bus119] 119 []
      (by norm_num [entry119, defaultConfig]) rfl rfl
      (by simp [collect_etas, bus119, calculate_eta, defaultConfig]; norm_num)).2.2.1
      (by norm_num [Config.eta_limit_seconds, defaultConfig]) (by decide)
  rw [h]
  norm_num [roundHalfEven]

/-- Claim C2 (amended): the endpoint declares no `return_all_sorted`
parameter, so the full-list response form is never produced: every response
of the handler is an error or a single `eta` value. -/
theorem response_never_full_list (cfg : Config) (q : Query) (ct : ℚ)
    (cached : Option CacheEntry) (fr : FetchResult) :
    isEtasResponse (get_eta cfg q ct cached fr).response = false := by
  unfold get_eta
  split
  · rfl
  · unfold resolve_entry
    dsimp only
    split
    · rfl
    · split
      · rfl
      · split
        · split <;> rfl
        · split
          · rfl
          · split <;> rfl

/-- Claim C2 (counterexample): a query for two matching buses 90 s and
2000 s away — the situation where the claimed `return_all_sorted` response
form would differ from the minimum — produces the single converted minimum
value 1.5 and not a list; the endpoint has no `return_all_sorted`
parameter, so supplying one changes nothing. -/
theorem return_all_sorted_unsupported :
    (get_eta defaultConfig ⟨"168", "d1", 4/10, "min"⟩ 10 (some entryTwoBuses)
        .requestError).response = .ok (.eta (.num (3/2))) ∧
    isEtasResponse ((get_eta defaultConfig ⟨"168", "d1", 4/10, "min"⟩ 10
        (some entryTwoBuses) .requestError).response) = false := by
  have h := get_eta_min_unit defaultConfig ⟨"168", "d1", 4/10, "min"⟩ 10
      entryTwoBuses .requestError [bus90, bus2000] 90 [2000]
      (by norm_num [entryTwoBuses, defaultConfig]) rfl rfl
      (by norm_num [collect_etas, bus90, bus2000, calculate_eta, defaultConfig,
        List.filterMap_cons]; simp)
      (by norm_num [Config.eta_limit_seconds, defaultConfig, min_def]) (by decide)
  rw [h]
  refine ⟨?_, rfl⟩
  norm_num [round1, roundHalfEven, min_def]

/-- Claim C6 (amended): a matching bus short of the stop gets the estimate
`(stop_distance - traveled) / (avg_speed * 1000 / 3600)` seconds; in the
spec scenario (length 5000 m, way part 0.2, stop part 0.4, 26 km/h) the
raw ETA is `1800/13 ≈ 138.46` s, unit "sec" gives the value 138, and unit
"min" gives the value 2.3 (one-decimal rounding), not 2. -/
theorem eta_formula_scenario (cfg : Config) (rn : String) (di : Option String)
    (L g s : ℚ) (hlt : L * g < L * s) :
    calculate_eta cfg ⟨some "bus", some rn, di, some (.num L), some (.num g)⟩ s =
      some ((L * s - L * g) / (cfg.avg_speed_kmh * 1000 / 3600)) ∧
    calculate_eta defaultConfig bus5000 (4/10) = some (1800/13) ∧
    1384/10 < (1800/13 : ℚ) ∧ (1800/13 : ℚ) < 1385/10 ∧
    (get_eta defaultConfig ⟨"168", "d1", 4/10, "sec"⟩ 10 (some entry5000)
        .requestError).response = .ok (.eta (.num 138)) ∧
    (get_eta defaultConfig ⟨"168", "d1", 4/10, "min"⟩ 10 (some entry5000)
        .requestError).response = .ok (.eta (.num (23/10))) := by
  refine ⟨?_, ?_, by norm_num, by norm_num, ?_, ?_⟩
  · show (if L * g ≥ L * s then (none : Option ℚ)
          else some ((L * s - L * g) / (cfg.avg_speed_kmh * 1000 / 3600))) =
        some ((L * s - L * g) / (cfg.avg_speed_kmh * 1000 / 3600))
    rw [if_neg (not_le.mpr hlt)]
  · simp [calculate_eta, bus5000, defaultConfig]
    norm_num
  · rw [get_eta_sec_unit defaultConfig ⟨"168", "d1", 4/10, "sec"⟩ 10 entry5000
      .requestError [bus5000] (1800/13) []
      (by norm_num [entry5000, defaultConfig]) rfl rfl
      (by norm_num [collect_etas, bus5000, calculate_eta, defaultConfig,
        List.filterMap_cons]; simp)
      (by norm_num [Config.eta_limit_seconds, defaultConfig]) (by decide)]
    norm_num [roundHalfEven]
  · rw [get_eta_min_unit defaultConfig ⟨"168", "d1", 4/10, "min"⟩ 10 entry5000
      .requestError [bus5000] (1800/13) []
      (by norm_num [entry5000, defaultConfig]) rfl rfl
      (by norm_num [collect_etas, bus5000, calculate_eta, defaultConfig,
        List.filterMap_cons]; simp)
      (by norm_num [Config.eta_limit_seconds, defaultConfig]) (by decide)]
    norm_num [round1, roundHalfEven]

/-- Claim C6 (counterexample): in the spec scenario the unit "min"
response value is 2.3, not the claimed 2. -/
theorem scenario_min_not_two :
    (get_eta defaultConfig ⟨"168", "d1", 4/10, "min"⟩ 10 (some entry5000)
        .requestError).response = .ok (.eta (.num (23/10))) ∧ (23 : ℚ)/10 ≠ 2 := by
  constructor
  · rw [get_eta_min_unit defaultConfig ⟨"168", "d1", 4/10, "min"⟩ 10 entry5000
      .requestError [bus5000] (1800/13) []
      (by norm_num [entry5000, defaultConfig]) rfl rfl
      (by norm_num [collect_etas, bus5000, calculate_eta, defaultConfig,
        List.filterMap_cons]; simp)
      (by norm_num [Config.eta_limit_seconds, defaultConfig]) (by decide)]
    norm_num [round1, roundHalfEven]
  · norm_num

/-- Witness for claim C6's amended theorem: the formula conjunct evaluated
at the scenario inputs. -/
theorem eta_formula_scenario_witness :
    calculate_eta defaultConfig
      ⟨some "bus", some "168", some "d1", some (.num 5000), some (.num (2/10))⟩
      (4/10) =
      some ((5000 * (4/10) - 5000 * (2/10)) /
        (defaultConfig.avg_speed_kmh * 1000 / 3600)) :=
  (eta_formula_scenario defaultConfig "168" (some "d1") 5000 (2/10) (4/10)
    (by norm_num)).1

/-- Claim C9: upstream status and transport failures surface as 502, other
exceptions as 500; a failed refresh propagates the error immediately with
the cache left unchanged (never serving the stale payload as a success); a
structurally invalid payload is a 502; and the no-bus outcome is still a
success response. -/
theorem gateway_failures (cfg : Config) :
    (∀ s, fetch_2gis_data (.httpStatusError s) = .error ⟨502⟩) ∧
    fetch_2gis_data .requestError = .error ⟨502⟩ ∧
    fetch_2gis_data .otherError = .error ⟨500⟩ ∧
    (∀ (q : Query) (ct : ℚ) (e : CacheEntry) fr err,
       fetch_2gis_data fr = .error err → ct - e.time > cfg.poll_interval →
       get_eta cfg q ct (some e) fr = ⟨.error err, some e, true⟩) ∧
    (∀ (q : Query) (ct : ℚ) fr err, fetch_2gis_data fr = .error err →
       get_eta cfg q ct none fr = ⟨.error err, none, true⟩) ∧
    (∀ (q : Query) (ct : ℚ) (e : CacheEntry) fr, ct - e.time ≤ cfg.poll_interval →
       (e.data.truthy = false ∨ e.data.devices = none) →
       (get_eta cfg q ct (some e) fr).response = .error ⟨502⟩) ∧
    (∀ (q : Query) (ct : ℚ) (e : CacheEntry) fr devs,
       ct - e.time ≤ cfg.poll_interval → e.data.truthy = true →
       e.data.devices = some devs →
       collect_etas cfg q.route_name q.direction_id q.stop_part devs = [] →
       ∃ v, (get_eta cfg q ct (some e) fr).response = .ok (.eta v)) := by
  refine ⟨fun s => rfl, rfl, rfl, fun q ct e fr err herr hstale => ?_,
    fun q ct fr err herr => ?_, fun q ct e fr hfresh hbad => ?_,
    fun q ct e fr devs hfresh htr hdevs hempty => ?_⟩
  · simp [get_eta, cache_check, hstale, herr]
  · simp [get_eta, cache_check, herr]
  · rw [get_eta_fresh cfg q ct e fr hfresh]
    unfold resolve_entry
    rcases hd : e.data.devices with - | devs
    · rfl
    · rcases hbad with htr | hdev
      · simp [htr]
      · rw [hdev] at hd
        cases hd
  · rw [get_eta_fresh cfg q ct e fr hfresh,
      resolve_entry_empty cfg q e false devs htr hdevs hempty]
    split
    · exact ⟨.null, rfl⟩
    · exact ⟨.str (">" ++ toString cfg.eta_limit_minutes), rfl⟩

/-- Witness for claim C9's theorem: an upstream 500 status on a stale entry
propagates as a 502 error, leaving the entry as it was. -/
theorem gateway_failures_witness :
    get_eta defaultConfig ⟨"168", "d1", 1, "min"⟩ 100
      (some ⟨⟨true, some []⟩, 0, 0⟩) (.httpStatusError 500) =
      ⟨.error ⟨502⟩, some ⟨⟨true, some []⟩, 0, 0⟩, true⟩ :=
  (gateway_failures defaultConfig).2.2.2.1 ⟨"168", "d1", 1, "min"⟩ 100
    ⟨⟨true, some []⟩, 0, 0⟩ (.httpStatusError 500) ⟨502⟩ rfl
    (by norm_num [defaultConfig])

/-- Claim C10: the unit parameter is matched case-insensitively against
"min" only; any unit whose lowercase form differs from "min" (such as
"sec" or "SEC") yields the minimum rounded half-to-even to the nearest
whole second, a unit lowercasing to "min" yields the minute conversion,
and no unit value produces an error. -/
theorem unit_matching (cfg : Config) (q : Query) (ct : ℚ) (e : CacheEntry)
    (fr : FetchResult) (devs : List Device) (x : ℚ) (xs : List ℚ)
    (hfresh : ct - e.time ≤ cfg.poll_interval) (htr : e.data.truthy = true)
    (hdevs : e.data.devices = some devs)
    (hcons : collect_etas cfg q.route_name q.direction_id q.stop_part devs = x :: xs)
    (hle : xs.foldl min x ≤ cfg.eta_limit_seconds) :
    (str_lower q.unit ≠ "min" →
       (get_eta cfg q ct (some e) fr).response =
         .ok (.eta (.num (roundHalfEven (xs.foldl min x) : ℚ)))) ∧
    (str_lower q.unit = "min" →
       (get_eta cfg q ct (some e) fr).response =
         .ok (.eta (.num (if round1 (xs.foldl min x / 60) ≤ 0 then 0
                          else round1 (xs.foldl min x / 60))))) := by
  refine ⟨fun hu => ?_, fun hu => ?_⟩
  · rw [get_eta_sec_unit cfg q ct e fr devs x xs hfresh htr hdevs hcons hle hu]
  · rw [get_eta_min_unit cfg q ct e fr devs x xs hfresh htr hdevs hcons hle hu]

/-- Witness for claim C10's theorem: unit "SEC" falls through to the
rounded-seconds branch on the scenario bus. -/
theorem unit_matching_witness :
    (get_eta defaultConfig ⟨"168", "d1", 4/10, "SEC"⟩ 10 (some entry5000)
        .requestError).response = .ok (.eta (.num 138)) := by
  have h := (unit_matching defaultConfig ⟨"168", "d1", 4/10, "SEC"⟩ 10 entry5000
      .requestError [bus5000] (1800/13) []
      (by norm_num [entry5000, defaultConfig]) rfl rfl
      (by norm_num [collect_etas, bus5000, calculate_eta, defaultConfig,
        List.filterMap_cons]; simp)
      (by norm_num [Config.eta_limit_seconds, defaultConfig])).1 (by decide)
  rw [h]
  norm_num [roundHalfEven]

end BusEta
